import Mathlib

/-
Shallow embedding of the receipt-field extraction engine of
backend/services/ocr_service.py (class OCRService), together with theorems
checking the specification's claims about it.

Conventions of the embedding:
  - Python strings are modelled as `List Char`; `str.lower`, `str.strip`,
    `str.title`, `str.split` are modelled on the ASCII fragment actually
    exercised by the source's data (keyword tables, regexes and literals are
    all ASCII apart from the currency symbols, which are single characters).
  - Python `float` values arising from `float(<regex capture>)` are modelled
    exactly as scaled integers (`DecVal`, a numerator over a power of ten);
    the captures contain only digits, '.' and ','.
  - Each regular expression of the source is embedded as a dedicated matcher
    implementing Python `re` leftmost-match backtracking semantics for that
    specific pattern.
  - Exceptions are modelled with `Except (List Char)`; `datetime.now()` is
    modelled by an ambient `today` string threaded through the definitions.
-/

/-! ## Character helpers -/

/-- ASCII fragment of Python `str.lower` (also the effect of `re.IGNORECASE`
on the ASCII letters appearing in the source's patterns). -/
def pyLower (c : Char) : Char :=
  if 'A' ≤ c ∧ c ≤ 'Z' then Char.ofNat (c.toNat + 32) else c

/-- ASCII fragment of Python `str.upper`. -/
def pyUpper (c : Char) : Char :=
  if 'a' ≤ c ∧ c ≤ 'z' then Char.ofNat (c.toNat - 32) else c

/-- Python regex `\s` (ASCII fragment): space, tab, newline, CR, VT, FF. -/
def isPySpace (c : Char) : Bool :=
  c = ' ' ∨ c = '\t' ∨ c = '\n' ∨ c = '\r' ∨ c = '\x0b' ∨ c = '\x0c'

/-- Python regex `\w` (ASCII fragment): alphanumeric or underscore. -/
def isWordC (c : Char) : Bool :=
  c.isAlphanum ∨ c = '_'

/-- Lowercase a whole string. -/
def pyLowerL (l : List Char) : List Char := l.map pyLower

/-- Python `str.strip()`: drop leading and trailing whitespace. -/
def pyStrip (l : List Char) : List Char :=
  ((l.dropWhile isPySpace).reverse.dropWhile isPySpace).reverse

/-- Helper for Python `str.title` (ASCII fragment): a letter is uppercased
when the previous character is not a letter, lowercased otherwise. -/
def pyTitleGo : Bool → List Char → List Char
  | _, [] => []
  | prevA, c :: r => (if prevA then pyLower c else pyUpper c) :: pyTitleGo c.isAlpha r

/-- Python `str.title` (ASCII fragment). -/
def pyTitle (l : List Char) : List Char := pyTitleGo false l

/-! ## Generic list-scanning helpers -/

/-- Does `s` start with `pat` (exact characters)? -/
def startsList : List Char → List Char → Bool
  | [], _ => true
  | _ :: _, [] => false
  | a :: as, b :: bs => a = b && startsList as bs

/-- Does `s` start with the (lowercase) pattern `pat`, case-insensitively? -/
def startsListCI : List Char → List Char → Bool
  | [], _ => true
  | _ :: _, [] => false
  | a :: as, b :: bs => a = pyLower b && startsListCI as bs

/-- Substring containment, Python `pat in hay`. -/
def containsSubstr : List Char → List Char → Bool
  | [], pat => pat.isEmpty
  | c :: t, pat => startsList pat (c :: t) || containsSubstr t pat

/-- Try a matcher at every position left to right and return the first
success: the search strategy of Python `re.search`. -/
def scanO {α : Type} (m : List Char → Option α) : List Char → Option α
  | [] => m []
  | c :: r => m (c :: r) <|> scanO m r

/-- First success of `f` over a list of candidates, in order: the
backtracking strategy of a Python regex alternation. -/
def firstSome {α β : Type} (l : List α) (f : α → Option β) : Option β :=
  match l with
  | [] => none
  | x :: r => f x <|> firstSome r f

/-- Python `str.split('\n')`. -/
def splitOnNl : List Char → List (List Char)
  | [] => [[]]
  | c :: r =>
    if c = '\n' then [] :: splitOnNl r
    else
      match splitOnNl r with
      | h :: t => (c :: h) :: t
      | [] => [[c]]

/-- Numeric value of a digit string. -/
def digitsToNat (l : List Char) : Nat :=
  l.foldl (fun acc c => acc * 10 + (c.toNat - 48)) 0

/-- A nonnegative decimal value `num / 10 ^ exp`, the exact form of every
float the source builds from a regex capture.  Kept as scaled integers so
that all comparisons are computable natural-number arithmetic. -/
structure DecVal where
  num : Nat
  exp : Nat
deriving DecidableEq

/-- The rational value of a `DecVal`. -/
def decValQ (d : DecVal) : ℚ :=
  (d.num : ℚ) / (10 : ℚ) ^ d.exp

/-- Exact comparison of two `DecVal`s, agreeing with Python's float
comparison on the magnitudes the source handles. -/
def decValLt (a b : DecVal) : Bool :=
  a.num * 10 ^ b.exp < b.num * 10 ^ a.exp

/-- Exact model of Python `float()` on the strings produced by the source's
numeric regex captures after comma removal: optional digits, at most one
`'.'`, nothing else.  Any other shape (two dots, empty, a stray `','`)
raises `ValueError` in Python and is `none` here. -/
def pyFloat (l : List Char) : Option DecVal :=
  if l ≠ [] ∧ l.all (fun c => c.isDigit ∨ c = '.') then
    match l.splitOn '.' with
    | [ip] => some (DecVal.mk (digitsToNat ip) 0)
    | [ip, fp] =>
      if ip = [] ∧ fp = [] then none
      else some (DecVal.mk (digitsToNat ip * 10 ^ fp.length + digitsToNat fp) fp.length)
    | _ => none
  else none

/-! ## Amount extractor (`OCRService._extract_amount`)

The five search patterns are, in source order (all `re.IGNORECASE`):
  1. `total[:\s]*[\$₹€£]?\s*(\d+[,.]?\d*\.?\d*)`
  2. `amount[:\s]*[\$₹€£]?\s*(\d+[,.]?\d*\.?\d*)`
  3. `grand\s*total[:\s]*[\$₹€£]?\s*(\d+[,.]?\d*\.?\d*)`
  4. `balance[:\s]*[\$₹€£]?\s*(\d+[,.]?\d*\.?\d*)`
  5. `[\$₹€£]\s*(\d+[,.]?\d*\.?\d*)`
followed by the fallback `re.findall` of `\b(\d+\.\d{2})\b`.
For these patterns greedy matching never needs to give characters back
(every character a quantifier could return is rejected by the next pattern
element), so each matcher below consumes maximally at each step. -/

/-- The currency symbols of the source's character class. -/
def isCurrencySym (c : Char) : Bool :=
  c = '$' ∨ c = '₹' ∨ c = '€' ∨ c = '£'

/-- Matcher for the capture group `(\d+[,.]?\d*\.?\d*)` at the current
position: one-or-more digits, an optional `','`/`'.'`, more digits, an
optional `'.'`, more digits, all greedy.  Returns the captured characters. -/
def matchNumGroup (s : List Char) : Option (List Char) :=
  let d1 := s.takeWhile Char.isDigit
  let r1 := s.dropWhile Char.isDigit
  if d1 = [] then none
  else some (
    match r1 with
    | c :: r2 =>
      if c = ',' ∨ c = '.' then
        let d2 := r2.takeWhile Char.isDigit
        let r3 := r2.dropWhile Char.isDigit
        match r3 with
        | '.' :: r4 => d1 ++ c :: (d2 ++ '.' :: r4.takeWhile Char.isDigit)
        | _ => d1 ++ c :: d2
      else d1
    | [] => d1)

/-- After a label has matched: `[:\s]*`, then an optional currency symbol,
then `\s*`, then the numeric capture group. -/
def matchAfterLabel (r : List Char) : Option (List Char) :=
  let r1 := r.dropWhile (fun c => c = ':' ∨ isPySpace c)
  let r2 :=
    match r1 with
    | c :: rest => if isCurrencySym c then rest else r1
    | [] => r1
  matchNumGroup (r2.dropWhile isPySpace)

/-- Matcher for a label pattern (`lbl` given lowercase) at one position. -/
def matchLabelAt (lbl : List Char) (s : List Char) : Option (List Char) :=
  if startsListCI lbl s then matchAfterLabel (s.drop lbl.length) else none

/-- `re.search` of a label pattern: capture of the leftmost match. -/
def searchLabel (lbl : List Char) (s : List Char) : Option (List Char) :=
  scanO (matchLabelAt lbl) s

/-- Matcher for `grand\s*total[...]` at one position. -/
def matchGrandTotalAt (s : List Char) : Option (List Char) :=
  if startsListCI ("grand".toList) s then
    let r := (s.drop 5).dropWhile isPySpace
    if startsListCI ("total".toList) r then matchAfterLabel (r.drop 5) else none
  else none

/-- `re.search` of the `grand\s*total` pattern. -/
def searchGrandTotal (s : List Char) : Option (List Char) :=
  scanO matchGrandTotalAt s

/-- Matcher for `[\$₹€£]\s*(\d+[,.]?\d*\.?\d*)` at one position. -/
def matchCurrencyAt (s : List Char) : Option (List Char) :=
  match s with
  | c :: r => if isCurrencySym c then matchNumGroup (r.dropWhile isPySpace) else none
  | [] => none

/-- `re.search` of the bare-currency pattern. -/
def searchCurrency (s : List Char) : Option (List Char) :=
  scanO matchCurrencyAt s

/-- Source lines 120-126: strip thousands separators from the capture, parse
as float, and accept only a value strictly between 0 and 1000000 (stated on
the scaled integers: `0 < num` and `num < 1000000 * 10 ^ exp` are exactly
`0 < value < 1000000`); a `ValueError` or an out-of-range value abandons
this pattern. -/
def validateAmount (g : List Char) : Option (List Char) :=
  match pyFloat (g.filter (fun c => c ≠ ',')) with
  | some d =>
    if 0 < d.num ∧ d.num < 1000000 * 10 ^ d.exp then
      some (g.filter (fun c => c ≠ ','))
    else none
  | none => none

/-- The five-pattern phase of `_extract_amount`: for each pattern in order,
only its first (leftmost) match is validated; an invalid or unparseable
capture moves on to the next pattern. -/
def amountPatternsPhase (t : List Char) : Option (List Char) :=
  ((searchLabel ("total".toList) t).bind validateAmount) <|>
  ((searchLabel ("amount".toList) t).bind validateAmount) <|>
  ((searchGrandTotal t).bind validateAmount) <|>
  ((searchLabel ("balance".toList) t).bind validateAmount) <|>
  ((searchCurrency t).bind validateAmount)

/-- Matcher for one fallback token `\b(\d+\.\d{2})\b` at the current
position (the position is already known to be at a word boundary): a maximal
digit run, `'.'`, exactly two digits, then a word boundary.  Returns the
token and the remaining input after it. -/
def parseTwoDecAt (s : List Char) : Option (List Char × List Char) :=
  let d := s.takeWhile Char.isDigit
  let r := s.dropWhile Char.isDigit
  if d = [] then none
  else
    match r with
    | '.' :: a :: b :: r3 =>
      if a.isDigit && b.isDigit && (match r3 with | [] => true | x :: _ => !isWordC x) then
        some (d ++ '.' :: a :: b :: [], r3)
      else none
    | _ => none

/-- Fuel-driven scan collecting all non-overlapping `\b(\d+\.\d{2})\b`
matches left to right, tracking whether the previous character is a word
character (for the `\b` test).  Fuel `s.length + 1` always suffices since
each step consumes at least one character. -/
def findTwoDecF : Nat → Bool → List Char → List (List Char)
  | 0, _, _ => []
  | _ + 1, _, [] => []
  | fuel + 1, prevW, c :: rest =>
    if prevW then findTwoDecF fuel (isWordC c) rest
    else
      match parseTwoDecAt (c :: rest) with
      | some (tok, r3) => tok :: findTwoDecF fuel true r3
      | none => findTwoDecF fuel (isWordC c) rest

/-- `re.findall(r'\b(\d+\.\d{2})\b', text)`. -/
def amountFallbackTokens (t : List Char) : List (List Char) :=
  findTwoDecF (t.length + 1) false t

/-- Numeric key of a fallback token (`float(x)`, exact here: every token has
the shape `digits.digitdigit`). -/
def twoDecVal (l : List Char) : DecVal :=
  (pyFloat l).getD (DecVal.mk 0 0)

/-- Python `max(amounts, key=lambda x: float(x))`: the first element whose
key is maximal. -/
def maxByFloatKey (l : List (List Char)) : Option (List Char) :=
  l.foldl
    (fun best t =>
      match best with
      | none => some t
      | some b => if decValLt (twoDecVal b) (twoDecVal t) then some t else some b)
    none

/-- The fallback phase of `_extract_amount` (source lines 128-131). -/
def amountFallback (t : List Char) : Option (List Char) :=
  maxByFloatKey (amountFallbackTokens t)

/-- `OCRService._extract_amount`: the five-pattern phase, then the
two-decimal-token fallback, else `None`. -/
def _extract_amount (t : List Char) : Option (List Char) :=
  amountPatternsPhase t <|> amountFallback t

/-! ## Date extractor (`OCRService._extract_date`)

Structural patterns, in source order (all `re.IGNORECASE`):
  1. `(\d{1,2} sep \d{1,2} sep \d{2,4})` with each sep in the class dash-or-slash
  2. `(\d{4} sep \d{1,2} sep \d{1,2})` likewise
  3. `(\d{1,2}\s+(?:jan|feb|mar|apr|may|jun|jul|aug|sep|oct|nov|dec)[a-z]*\s+\d{2,4})`
For each pattern only the first match is tried against the format list
`%d-%m-%Y, %m-%d-%Y, %Y-%m-%d, %d/%m/%Y, %m/%d/%Y, %d %B %Y, %d %b %Y`
(CPython `strptime` semantics, including the final calendar-validity check
of the `datetime` constructor); a match that parses is normalized with
`strftime('%Y-%m-%d')`, a match that does not parse falls through to the
next pattern, and if nothing parses the current date is returned. -/

/-- Candidate parses of `\d{1,2}` at the head, greedy order (two digits
before one), each with the remaining input. -/
def cands12 (s : List Char) : List (List Char × List Char) :=
  match s with
  | a :: b :: r =>
    if a.isDigit then
      if b.isDigit then [([a, b], r), ([a], b :: r)] else [([a], b :: r)]
    else []
  | [a] => if a.isDigit then [([a], [])] else []
  | [] => []

/-- Greedy `\d{2,4}` at the end of a pattern: the longest available digit
prefix of length at most 4, failing below length 2. -/
def take24 (s : List Char) : Option (List Char) :=
  let run := s.takeWhile Char.isDigit
  if 4 ≤ run.length then some (run.take 4)
  else if 2 ≤ run.length then some run
  else none

/-- Greedy `\d{1,2}` at the end of a pattern. -/
def take12 (s : List Char) : Option (List Char) :=
  let run := s.takeWhile Char.isDigit
  if 2 ≤ run.length then some (run.take 2)
  else if 1 ≤ run.length then some run
  else none

/-- Is the character one of the separators of the dash-or-slash class? -/
def isDateSep (c : Char) : Bool := c = '-' ∨ c = '/'

/-- Matcher for pattern 1 at one position, with the backtracking the two
`\d{1,2}` require.  Returns the whole matched substring (group 0). -/
def matchP1At (s : List Char) : Option (List Char) :=
  firstSome (cands12 s) (fun p =>
    match p.2 with
    | c1 :: r2 =>
      if isDateSep c1 then
        firstSome (cands12 r2) (fun q =>
          match q.2 with
          | c2 :: r4 =>
            if isDateSep c2 then (take24 r4).map (fun t3 => p.1 ++ c1 :: (q.1 ++ c2 :: t3))
            else none
          | [] => none)
      else none
    | [] => none)

/-- Exactly four digits at the head, with the remaining input. -/
def takeYear4 (s : List Char) : Option (List Char × List Char) :=
  match s with
  | a :: b :: c :: d :: r =>
    if a.isDigit && b.isDigit && c.isDigit && d.isDigit then some ([a, b, c, d], r) else none
  | _ => none

/-- Matcher for pattern 2 at one position. -/
def matchP2At (s : List Char) : Option (List Char) :=
  (takeYear4 s).bind (fun y =>
    match y.2 with
    | c1 :: r2 =>
      if isDateSep c1 then
        firstSome (cands12 r2) (fun q =>
          match q.2 with
          | c2 :: r4 =>
            if isDateSep c2 then (take12 r4).map (fun t3 => y.1 ++ c1 :: (q.1 ++ c2 :: t3))
            else none
          | [] => none)
      else none
    | [] => none)

/-- The twelve three-letter month tokens of pattern 3's alternation. -/
def monthAbbrevs : List (List Char) :=
  (("jan feb mar apr may jun jul aug sep oct nov dec").toList).splitOn ' '

/-- Month-abbreviation alternation of pattern 3 at one position: returns the
three matched original characters and the rest. -/
def matchMonAbbrevAt (s : List Char) : Option (List Char × List Char) :=
  firstSome monthAbbrevs (fun ab =>
    if startsListCI ab s then some (s.take 3, s.drop 3) else none)

/-- Matcher for pattern 3 at one position. -/
def matchP3At (s : List Char) : Option (List Char) :=
  firstSome (cands12 s) (fun p =>
    let w1 := p.2.takeWhile isPySpace
    if w1 = [] then none
    else
      (matchMonAbbrevAt (p.2.dropWhile isPySpace)).bind (fun m =>
        let letters := m.2.takeWhile Char.isAlpha
        let r4 := m.2.dropWhile Char.isAlpha
        let w2 := r4.takeWhile isPySpace
        if w2 = [] then none
        else
          (take24 (r4.dropWhile isPySpace)).map (fun t3 =>
            p.1 ++ w1 ++ m.1 ++ letters ++ w2 ++ t3)))

/-- `re.search` of date pattern 1. -/
def searchP1 (s : List Char) : Option (List Char) := scanO matchP1At s

/-- `re.search` of date pattern 2. -/
def searchP2 (s : List Char) : Option (List Char) := scanO matchP2At s

/-- `re.search` of date pattern 3. -/
def searchP3 (s : List Char) : Option (List Char) := scanO matchP3At s

/-! ### CPython `strptime` for the seven formats -/

/-- A parsed calendar date. -/
structure PDate where
  year : Nat
  month : Nat
  day : Nat
deriving DecidableEq

/-- Gregorian leap year, as in Python's `calendar`/`datetime`. -/
def isLeap (y : Nat) : Bool :=
  y % 4 = 0 ∧ (y % 100 ≠ 0 ∨ y % 400 = 0)

/-- Days in a month. -/
def daysInMonth (y m : Nat) : Nat :=
  if m = 2 then (if isLeap y then 29 else 28)
  else if m = 4 ∨ m = 6 ∨ m = 9 ∨ m = 11 then 30
  else 31

/-- The `datetime(year, month, day)` constructor check: `strptime` raises
`ValueError` unless `MINYEAR ≤ year` and the day exists in the month. -/
def mkValidDate (y m d : Nat) : Option PDate :=
  if 1 ≤ y ∧ d ≤ daysInMonth y m then some (PDate.mk y m d) else none

/-- Candidate parses of the `%d` directive `(3[01]|[12]\d|0[1-9]|[1-9])`, in
CPython's alternation order (two-digit alternatives before the one-digit
one), each with the remaining input. -/
def pDayCands (s : List Char) : List (Nat × List Char) :=
  match s with
  | a :: b :: r =>
    let two :=
      if (a = '3' ∧ (b = '0' ∨ b = '1')) ∨ ((a = '1' ∨ a = '2') ∧ b.isDigit) ∨
         (a = '0' ∧ b.isDigit ∧ b ≠ '0') then
        [((a.toNat - 48) * 10 + (b.toNat - 48), r)]
      else []
    let one := if a.isDigit ∧ a ≠ '0' then [(a.toNat - 48, b :: r)] else []
    two ++ one
  | [a] => if a.isDigit ∧ a ≠ '0' then [(a.toNat - 48, [])] else []
  | [] => []

/-- Candidate parses of the `%m` directive `(1[0-2]|0[1-9]|[1-9])`. -/
def pMonCands (s : List Char) : List (Nat × List Char) :=
  match s with
  | a :: b :: r =>
    let two :=
      if (a = '1' ∧ (b = '0' ∨ b = '1' ∨ b = '2')) ∨ (a = '0' ∧ b.isDigit ∧ b ≠ '0') then
        [((a.toNat - 48) * 10 + (b.toNat - 48), r)]
      else []
    let one := if a.isDigit ∧ a ≠ '0' then [(a.toNat - 48, b :: r)] else []
    two ++ one
  | [a] => if a.isDigit ∧ a ≠ '0' then [(a.toNat - 48, [])] else []
  | [] => []

/-- The `%Y` directive `(\d\d\d\d)`: exactly four digits, as a number. -/
def pYear4 (s : List Char) : Option (Nat × List Char) :=
  (takeYear4 s).map (fun y => (digitsToNat y.1, y.2))

/-- Full month names with their numbers (each name matches at most one
position since no name is a prefix of another). -/
def monthFullNames : List (List Char × Nat) :=
  [(("january").toList, 1), (("february").toList, 2), (("march").toList, 3),
   (("april").toList, 4), (("may").toList, 5), (("june").toList, 6),
   (("july").toList, 7), (("august").toList, 8), (("september").toList, 9),
   (("october").toList, 10), (("november").toList, 11), (("december").toList, 12)]

/-- Abbreviated month names with their numbers. -/
def monthAbbrNames : List (List Char × Nat) :=
  [(("jan").toList, 1), (("feb").toList, 2), (("mar").toList, 3),
   (("apr").toList, 4), (("may").toList, 5), (("jun").toList, 6),
   (("jul").toList, 7), (("aug").toList, 8), (("sep").toList, 9),
   (("oct").toList, 10), (("nov").toList, 11), (("dec").toList, 12)]

/-- Month-name directive (`%B` or `%b`, depending on the table passed),
case-insensitive. -/
def pMonthName (tbl : List (List Char × Nat)) (s : List Char) : Option (Nat × List Char) :=
  firstSome tbl (fun e =>
    if startsListCI e.1 s then some (e.2, s.drop e.1.length) else none)

/-- `strptime(s, '%d<sep>%m<sep>%Y')`, full-string match required. -/
def parse_dmY (sep : Char) (s : List Char) : Option PDate :=
  firstSome (pDayCands s) (fun dp =>
    match dp.2 with
    | c :: r2 =>
      if c = sep then
        firstSome (pMonCands r2) (fun mp =>
          match mp.2 with
          | c2 :: r4 =>
            if c2 = sep then
              match pYear4 r4 with
              | some (y, []) => mkValidDate y mp.1 dp.1
              | _ => none
            else none
          | [] => none)
      else none
    | [] => none)

/-- `strptime(s, '%m<sep>%d<sep>%Y')`, full-string match required. -/
def parse_mdY (sep : Char) (s : List Char) : Option PDate :=
  firstSome (pMonCands s) (fun mp =>
    match mp.2 with
    | c :: r2 =>
      if c = sep then
        firstSome (pDayCands r2) (fun dp =>
          match dp.2 with
          | c2 :: r4 =>
            if c2 = sep then
              match pYear4 r4 with
              | some (y, []) => mkValidDate y mp.1 dp.1
              | _ => none
            else none
          | [] => none)
      else none
    | [] => none)

/-- `strptime(s, '%Y-%m-%d')`, full-string match required. -/
def parse_Ymd (s : List Char) : Option PDate :=
  (pYear4 s).bind (fun yp =>
    match yp.2 with
    | '-' :: r2 =>
      firstSome (pMonCands r2) (fun mp =>
        match mp.2 with
        | '-' :: r4 =>
          firstSome (pDayCands r4) (fun dp =>
            if dp.2 = [] then mkValidDate yp.1 mp.1 dp.1 else none)
        | _ => none)
    | _ => none)

/-- `strptime(s, '%d %B %Y')` or `'%d %b %Y'` (month table passed in); the
literal blank in the format matches `\s+`. -/
def parse_dNameY (tbl : List (List Char × Nat)) (s : List Char) : Option PDate :=
  firstSome (pDayCands s) (fun dp =>
    if (dp.2.takeWhile isPySpace) = [] then none
    else
      (pMonthName tbl (dp.2.dropWhile isPySpace)).bind (fun mp =>
        if (mp.2.takeWhile isPySpace) = [] then none
        else
          match pYear4 (mp.2.dropWhile isPySpace) with
          | some (y, []) => mkValidDate y mp.1 dp.1
          | _ => none))

/-- Zero-padded two-digit rendering. -/
def pad2 (n : Nat) : List Char :=
  if n < 10 then '0' :: Nat.toDigits 10 n else Nat.toDigits 10 n

/-- Zero-padded four-digit rendering. -/
def pad4 (n : Nat) : List Char :=
  if n < 10 then '0' :: '0' :: '0' :: Nat.toDigits 10 n
  else if n < 100 then '0' :: '0' :: Nat.toDigits 10 n
  else if n < 1000 then '0' :: Nat.toDigits 10 n
  else Nat.toDigits 10 n

/-- `parsed_date.strftime('%Y-%m-%d')`. -/
def fmtDate (d : PDate) : List Char :=
  pad4 d.year ++ '-' :: (pad2 d.month ++ '-' :: pad2 d.day)

/-- Try the seven formats in source order on one matched substring; the
first that parses wins and is normalized. -/
def tryFormats (m : List Char) : Option (List Char) :=
  ((parse_dmY '-' m) <|> (parse_mdY '-' m) <|> (parse_Ymd m) <|>
   (parse_dmY '/' m) <|> (parse_mdY '/' m) <|>
   (parse_dNameY monthFullNames m) <|> (parse_dNameY monthAbbrNames m)).map fmtDate

/-- `OCRService._extract_date`, with `datetime.now().strftime('%Y-%m-%d')`
modelled by the `today` argument. -/
def _extract_date (today : List Char) (t : List Char) : List Char :=
  (((searchP1 t).bind tryFormats) <|> ((searchP2 t).bind tryFormats) <|>
   ((searchP3 t).bind tryFormats)).getD today

/-! ## Category and payment-method extractors
(`OCRService._extract_category`, `OCRService._extract_payment_method`) -/

/-- Split a blank-separated word list. -/
def splitWords (s : String) : List (List Char) :=
  (s.toList).splitOn ' '

/-- The category name `Food`. -/
def catFood : List Char := ("Food").toList

/-- The category name `Transportation`. -/
def catTransportation : List Char := ("Transportation").toList

/-- The category name `Accommodation`. -/
def catAccommodation : List Char := ("Accommodation").toList

/-- The category name `Office Supplies`. -/
def catOfficeSupplies : List Char := ("Office Supplies").toList

/-- The category name `Entertainment`. -/
def catEntertainment : List Char := ("Entertainment").toList

/-- The category name `Medical`. -/
def catMedical : List Char := ("Medical").toList

/-- The category name `Utilities`. -/
def catUtilities : List Char := ("Utilities").toList

/-- The default category `Other`. -/
def catOther : List Char := ("Other").toList

/-- Keywords of the `Food` entry, in source order. -/
def foodKeywords : List (List Char) :=
  splitWords "restaurant cafe coffee food dining meal breakfast lunch dinner pizza burger kitchen grill bistro"

/-- Keywords of the `Transportation` entry, in source order. -/
def transportationKeywords : List (List Char) :=
  splitWords "taxi uber lyft ola fuel gas petrol parking toll metro train flight bus"

/-- The `categories` table of `_extract_category`, in dict insertion
order. -/
def categoriesTable : List (List Char × List (List Char)) :=
  [(catFood, foodKeywords),
   (catTransportation, transportationKeywords),
   (catAccommodation, splitWords "hotel motel accommodation lodging airbnb resort"),
   (catOfficeSupplies, splitWords "office supplies stationery printer paper"),
   (catEntertainment, splitWords "movie cinema theater entertainment show"),
   (catMedical, splitWords "pharmacy medical hospital clinic doctor medicine"),
   (catUtilities, splitWords "electric water internet phone utility")]

/-- First table entry one of whose keywords occurs in the lowered text:
the `for category, keywords in ...: if any(...)` loop of the source. -/
def lookupKeywordTable : List (List Char × List (List Char)) → List Char → Option (List Char)
  | [], _ => none
  | (cat, kws) :: rest, tl =>
    if kws.any (fun k => containsSubstr tl k) then some cat else lookupKeywordTable rest tl

/-- `OCRService._extract_category`. -/
def _extract_category (t : List Char) : List Char :=
  (lookupKeywordTable categoriesTable (pyLowerL t)).getD catOther

/-- The payment method `Credit Card`. -/
def payCreditCard : List Char := ("Credit Card").toList

/-- The payment method `Debit Card`. -/
def payDebitCard : List Char := ("Debit Card").toList

/-- The payment method `UPI`. -/
def payUPI : List Char := ("UPI").toList

/-- The payment method and default `Cash`. -/
def payCash : List Char := ("Cash").toList

/-- The `payment_methods` table of `_extract_payment_method`, in dict
insertion order. -/
def paymentTable : List (List Char × List (List Char)) :=
  [(payCreditCard, splitWords "credit visa mastercard amex"),
   (payDebitCard, splitWords "debit"),
   (payUPI, splitWords "upi paytm gpay phonepe bhim"),
   (payCash, splitWords "cash")]

/-- `OCRService._extract_payment_method`. -/
def _extract_payment_method (t : List Char) : List Char :=
  (lookupKeywordTable paymentTable (pyLowerL t)).getD payCash

/-! ## Description extractor (`OCRService._extract_description`) -/

/-- Character class of `^[\d\s\-:.]+$` together with `'/'` (the source class
also lists the slash): digits, whitespace, dash, slash, colon, dot. -/
def isNumPunct (c : Char) : Bool :=
  c.isDigit ∨ isPySpace c ∨ c = '-' ∨ c = '/' ∨ c = ':' ∨ c = '.'

/-- Full-line version of date pattern 1, i.e. `re.match` of
`^\d{1,2}...\d{2,4}$` on the line: for this pattern the greedy-first matcher
at position 0 covers the whole line exactly when some anchored parse does. -/
def fullDateShaped (l : List Char) : Bool :=
  matchP1At l = some l

/-- Characters kept by `re.sub` with the negated class: ASCII alphanumeric,
whitespace, ampersand, apostrophe, dash. -/
def keepDescChar (c : Char) : Bool :=
  c.isAlphanum ∨ isPySpace c ∨ c = '&' ∨ c = '\'' ∨ c = '-'

/-- The `for line in lines[:5]` loop body of `_extract_description`: a line
whose cleaned form is still too short does not stop the loop. -/
def descLoop : List (List Char) → Option (List Char)
  | [] => none
  | line :: rest =>
    let l := pyStrip line
    if l ≠ [] ∧ 3 < l.length ∧ ¬(l.all isNumPunct) ∧ ¬fullDateShaped l then
      let c := pyStrip (l.filter keepDescChar)
      if 3 < c.length then some (c.take 100) else descLoop rest
    else descLoop rest

/-- `OCRService._extract_description`. -/
def _extract_description (t : List Char) : Option (List Char) :=
  descLoop ((splitOnNl t).take 5)

/-! ## Employee extractor (`OCRService._extract_employee`)

Patterns (both `re.IGNORECASE`):
  A. `(?:name|employee|customer)[:\s]+([a-z\s]+)`
  B. `(?:mr|ms|mrs)[.\s]+([a-z\s]+)`
For the group, Python's backtracking gives: if the character right after the
maximal separator run is a letter, the group is the maximal letters-and-
whitespace run from there; otherwise the separator run gives characters
back — but never its first one, since `[:\s]+` must keep at least one — and
the group becomes the last whitespace character of the run at index 1 or
later (every character of the run after it is the non-whitespace
separator); when the only whitespace of the run is its first character this
position fails and the search moves on. -/

/-- Group capture after a label, `sep` being the separator class of the
pattern (colon-or-space for A, dot-or-space for B). -/
def empGroup (sep : Char → Bool) (r : List Char) : Option (List Char) :=
  let run := r.takeWhile sep
  let rest := r.dropWhile sep
  if run = [] then none
  else
    match rest with
    | c :: _ =>
      if c.isAlpha then some (rest.takeWhile (fun x => x.isAlpha || isPySpace x))
      else
        (match (run.drop 1).reverse.find? isPySpace with
         | some w => some [w]
         | none => none)
    | [] =>
      match (run.drop 1).reverse.find? isPySpace with
      | some w => some [w]
      | none => none

/-- One-position matcher for an employee pattern: label alternation then
separator run then group. -/
def matchEmpAt (labels : List (List Char)) (sep : Char → Bool) (s : List Char) :
    Option (List Char) :=
  firstSome labels (fun lbl =>
    if startsListCI lbl s then empGroup sep (s.drop lbl.length) else none)

/-- `re.search` of employee pattern A. -/
def searchEmpA (s : List Char) : Option (List Char) :=
  scanO (matchEmpAt [("name").toList, ("employee").toList, ("customer").toList]
    (fun c => c = ':' ∨ isPySpace c)) s

/-- `re.search` of employee pattern B. -/
def searchEmpB (s : List Char) : Option (List Char) :=
  scanO (matchEmpAt [("mr").toList, ("ms").toList, ("mrs").toList]
    (fun c => c = '.' ∨ isPySpace c)) s

/-- Source lines 220-222: strip the capture, require length strictly between
2 and 50 and no digit, and title-case it; a failing capture falls through to
the next pattern. -/
def validateName (g : List Char) : Option (List Char) :=
  let n := pyStrip g
  if 2 < n.length ∧ n.length < 50 ∧ ¬(n.any Char.isDigit) then some (pyTitle n) else none

/-- `OCRService._extract_employee`. -/
def _extract_employee (t : List Char) : Option (List Char) :=
  ((searchEmpA t).bind validateName) <|> ((searchEmpB t).bind validateName)

/-! ## Remark extractor (`OCRService._extract_remark`) -/

/-- Does the line contain one of `note`, `remark`, `comment`, `memo`
(case-insensitive), i.e. does `re.search(r'note|remark|comment|memo', line,
re.IGNORECASE)` succeed? -/
def hasRemarkKeyword (line : List Char) : Bool :=
  containsSubstr (pyLowerL line) (("note").toList) ||
  containsSubstr (pyLowerL line) (("remark").toList) ||
  containsSubstr (pyLowerL line) (("comment").toList) ||
  containsSubstr (pyLowerL line) (("memo").toList)

/-- The line loop of `_extract_remark`: on the first keyword line, return
the next line stripped and truncated to 200 characters if it exists; a
keyword hit on the last line returns nothing. -/
def remarkLoop : List (List Char) → Option (List Char)
  | [] => none
  | line :: rest =>
    if hasRemarkKeyword line then
      match rest with
      | next :: _ => some ((pyStrip next).take 200)
      | [] => none
    else remarkLoop rest

/-- `OCRService._extract_remark`. -/
def _extract_remark (t : List Char) : Option (List Char) :=
  remarkLoop (splitOnNl t)

/-! ## Image normalizer (`OCRService._preprocess_image`) -/

/-- A PIL image as far as this pipeline observes it: a color mode and pixel
dimensions. -/
structure PILImage where
  mode : List Char
  width : Nat
  height : Nat
deriving DecidableEq

/-- The mode string `RGB`. -/
def rgbMode : List Char := ("RGB").toList

/-- The mode string `L` (grayscale). -/
def lMode : List Char := ("L").toList

/-! ### Binary64 arithmetic for the resize factor

The source computes `scale_factor = 1500 / width` and then
`int(width * scale_factor)` and `int(height * scale_factor)` in Python
floats (IEEE binary64).  This rounding is observable: for 35 widths below
1000 (91, 182, 183, ...) the product `width * (1500 / width)` lands just
below 1500 and truncates to 1499, and for example `11 * (1500 / 275)` lands
just below the exact quotient 60 and truncates to 59.  The model below
implements binary64 round-to-nearest, ties-to-even, exactly, on scaled
integers. -/

/-- Bit length of a natural number, fuel-driven so the kernel can evaluate
it.  Exact for `n < 2 ^ 128`, which covers every quantity this pipeline
feeds it: mantissas are below `2 ^ 53` and the dimensions of a decodable
image are below `2 ^ 31` (PIL dimensions are C ints). -/
def natBitsF : Nat → Nat → Nat
  | 0, _ => 0
  | f + 1, n => if n = 0 then 0 else natBitsF f (n / 2) + 1

/-- Bit length of a natural number below `2 ^ 128`. -/
def natBits (n : Nat) : Nat := natBitsF 128 n

/-- A nonnegative binary64 value `mant * 2 ^ exp`; as produced by rounding,
`mant` is in `[2 ^ 52, 2 ^ 53)` for positive values and 0 for zero. -/
structure FDouble where
  mant : Nat
  exp : Int
deriving DecidableEq

/-- The rational value of an `FDouble`. -/
def fdValQ (f : FDouble) : ℚ :=
  (f.mant : ℚ) * (2 : ℚ) ^ f.exp

/-- Round the nonnegative rational `a / b` (`b ≥ 1`) to the nearest binary64
value, ties to even: the exact result of a CPython float division or
multiplication on the normal, non-overflowing range this pipeline stays in.
The exponent `e` is the floor of the base-2 logarithm of `a / b`, the
candidate mantissa `q` is the value scaled into `[2 ^ 52, 2 ^ 53)` and
truncated, and the remainder decides the direction of the rounding. -/
def roundRatToDouble (a b : Nat) : FDouble :=
  if a = 0 then FDouble.mk 0 0
  else
    let e0 : Int := (natBits a : Int) - (natBits b : Int)
    let ok := if 0 ≤ e0 then b * 2 ^ e0.toNat ≤ a else b ≤ a * 2 ^ (-e0).toNat
    let e : Int := if ok then e0 else e0 - 1
    let t : Int := 52 - e
    let num := if 0 ≤ t then a * 2 ^ t.toNat else a
    let den := if 0 ≤ t then b else b * 2 ^ (-t).toNat
    let q := num / den
    let r := num % den
    let m := if den < 2 * r ∨ (2 * r = den ∧ q % 2 = 1) then q + 1 else q
    if m = 2 ^ 53 then FDouble.mk (2 ^ 52) (e - 51) else FDouble.mk m (e - 52)

/-- Python float division of two nonnegative integers (`b ≥ 1`; `b = 0`
raises `ZeroDivisionError` in Python and is excluded by the caller's
zero-width branch). -/
def divDouble (a b : Nat) : FDouble := roundRatToDouble a b

/-- Python float multiplication of a nonnegative integer by a binary64
value: the exact product, rounded. -/
def mulNatDouble (x : Nat) (f : FDouble) : FDouble :=
  if 0 ≤ f.exp then roundRatToDouble (x * f.mant * 2 ^ f.exp.toNat) 1
  else roundRatToDouble (x * f.mant) (2 ^ (-f.exp).toNat)

/-- Python `int()` on a nonnegative binary64 value: truncation toward
zero. -/
def truncDouble (f : FDouble) : Nat :=
  if 0 ≤ f.exp then f.mant * 2 ^ f.exp.toNat else f.mant / 2 ^ (-f.exp).toNat

/-- `OCRService._preprocess_image`: convert to RGB if needed, convert to
grayscale, and when the width is below 1000 resize with
`scale_factor = 1500 / width` (binary64 division) and
`new_width = int(width * scale_factor)`,
`new_height = int(height * scale_factor)` (binary64 multiplications,
truncated).  A zero width makes `1500 / width` raise `ZeroDivisionError`,
which the source's local handler catches, returning the image as converted
so far. -/
def _preprocess_image (img : PILImage) : PILImage :=
  let i1 := if img.mode ≠ rgbMode then PILImage.mk rgbMode img.width img.height else img
  let i2 := PILImage.mk lMode i1.width i1.height
  if i2.width < 1000 then
    if i2.width = 0 then i2
    else
      PILImage.mk i2.mode
        (truncDouble (mulNatDouble i2.width (divDouble 1500 i2.width)))
        (truncDouble (mulNatDouble i2.height (divDouble 1500 i2.width)))
  else i2

/-- The fraction `num / den` rounded to the nearest integer (halves up):
`floor(num / den + 1 / 2)`.  Modelled from the spec's words "height scaled
by the same factor, rounded to nearest integer", for comparison with the
source's truncation. -/
def specRoundNearest (num den : Nat) : Nat :=
  (2 * num + den) / (2 * den)

/-! ## Extraction orchestrator (`OCRService.extract_expense_details`)

The whole body runs under one `try`; any exception is converted into the
canonical empty response with `"OCR processing failed: <message>"` as the
description.  Decoding (`PIL.Image.open`) and recognition
(`pytesseract.image_to_string`) are external capabilities, passed in as
fallible functions; the seven extractors are invoked in the dict-literal
order employee, description, date, category, paid_by, remark, amount, with
no per-extractor handler, so an extractor exception aborts the whole `try`
block. -/

/-- The result-dictionary keys. -/
def kEmployee : String := "employee"

/-- Key of the description field. -/
def kDescription : String := "description"

/-- Key of the date field. -/
def kDate : String := "date"

/-- Key of the category field. -/
def kCategory : String := "category"

/-- Key of the payment-method field. -/
def kPaidBy : String := "paid_by"

/-- Key of the remark field. -/
def kRemark : String := "remark"

/-- Key of the amount field. -/
def kAmount : String := "amount"

/-- The message passed to `_empty_response` when the recognized text is too
short. -/
def msgNoText : List Char :=
  ("No text detected in image. Please ensure the receipt is clear and well-lit.").toList

/-- The prefix of the message embedded on a caught exception. -/
def msgOCRFailed : List Char := ("OCR processing failed: ").toList

/-- `OCRService._empty_response`: the canonical empty response, with
`datetime.now().strftime('%Y-%m-%d')` modelled by `today`.  The description
is the error message when one is given (`error_message if error_message else
None`). -/
def _empty_response (today : List Char) (msg : List Char) :
    List (String × Option (List Char)) :=
  [(kEmployee, none),
   (kDescription, if msg = [] then none else some msg),
   (kDate, some today),
   (kCategory, some catOther),
   (kPaidBy, some payCash),
   (kRemark, none),
   (kAmount, none)]

/-- The seven field extractors as fallible functions (Python functions that
may raise), in the shape the orchestrator consumes. -/
structure Extractors where
  employee : List Char → Except (List Char) (Option (List Char))
  description : List Char → Except (List Char) (Option (List Char))
  date : List Char → Except (List Char) (List Char)
  category : List Char → Except (List Char) (List Char)
  paid_by : List Char → Except (List Char) (List Char)
  remark : List Char → Except (List Char) (Option (List Char))
  amount : List Char → Except (List Char) (Option (List Char))

/-- The source's actual extractors: total functions, lifted. -/
def realExtractors (today : List Char) : Extractors :=
  Extractors.mk
    (fun t => Except.ok (_extract_employee t))
    (fun t => Except.ok (_extract_description t))
    (fun t => Except.ok (_extract_date today t))
    (fun t => Except.ok (_extract_category t))
    (fun t => Except.ok (_extract_payment_method t))
    (fun t => Except.ok (_extract_remark t))
    (fun t => Except.ok (_extract_amount t))

/-- Construction of the `extracted_data` dict (source lines 63-71): the
extractors run in dict-literal order, and the first exception aborts the
construction. -/
def assembleWith (fs : Extractors) (t : List Char) :
    Except (List Char) (List (String × Option (List Char))) :=
  match fs.employee t with
  | Except.error e => Except.error e
  | Except.ok ev =>
    match fs.description t with
    | Except.error e => Except.error e
    | Except.ok dv =>
      match fs.date t with
      | Except.error e => Except.error e
      | Except.ok dav =>
        match fs.category t with
        | Except.error e => Except.error e
        | Except.ok cv =>
          match fs.paid_by t with
          | Except.error e => Except.error e
          | Except.ok pv =>
            match fs.remark t with
            | Except.error e => Except.error e
            | Except.ok rv =>
              match fs.amount t with
              | Except.error e => Except.error e
              | Except.ok av =>
                Except.ok
                  [(kEmployee, ev), (kDescription, dv), (kDate, some dav),
                   (kCategory, some cv), (kPaidBy, some pv), (kRemark, rv),
                   (kAmount, av)]

/-- The external capabilities the orchestrator calls, plus the ambient
current date. -/
structure OCREnv where
  decode : List Nat → Except (List Char) PILImage
  recognize : PILImage → Except (List Char) (List Char)
  today : List Char

/-- The body of the orchestrator's `try` block: decode, preprocess,
recognize, validity-check, assemble.  An `Except.error` is an uncaught
Python exception crossing this code. -/
def extract_core_with (fs : Extractors) (env : OCREnv) (content : List Nat) :
    Except (List Char) (List (String × Option (List Char))) :=
  match env.decode content with
  | Except.error e => Except.error e
  | Except.ok img =>
    match env.recognize (_preprocess_image img) with
    | Except.error e => Except.error e
    | Except.ok txt =>
      if txt = [] ∨ (pyStrip txt).length < 10 then
        Except.ok (_empty_response env.today msgNoText)
      else assembleWith fs txt

/-- `OCRService.extract_expense_details` generalized over the extractor
functions: the `except Exception` handler turns any escaped exception into
the empty response carrying the message. -/
def extract_expense_details_with (fs : Extractors) (env : OCREnv) (content : List Nat) :
    List (String × Option (List Char)) :=
  match extract_core_with fs env content with
  | Except.ok r => r
  | Except.error e => _empty_response env.today (msgOCRFailed ++ e)

/-- `OCRService.extract_expense_details`. -/
def extract_expense_details (env : OCREnv) (content : List Nat) :
    List (String × Option (List Char)) :=
  extract_expense_details_with (realExtractors env.today) env content

/-! ## Concrete fixtures for witnesses and counterexamples -/

/-- A fixed "current date" for concrete runs. -/
def epochDay : List Char := ("1970-01-01").toList

/-- A decoded image wide enough to skip resizing. -/
def imgBig : PILImage := PILImage.mk rgbMode 1200 900

/-- The message of a failed `PIL.Image.open`. -/
def decodeFailMsg : List Char := ("cannot identify image file").toList

/-- An environment whose decoder always fails. -/
def envDecodeFail : OCREnv :=
  OCREnv.mk (fun _ => Except.error decodeFailMsg) (fun _ => Except.ok []) epochDay

/-- A recognized text mentioning `uber` and nothing from the Food row. -/
def uberText : List Char := ("paid uber ride receipt").toList

/-- An environment that decodes and recognizes `uberText`. -/
def envUber : OCREnv :=
  OCREnv.mk (fun _ => Except.ok imgBig) (fun _ => Except.ok uberText) epochDay

/-- The message of a hypothetical extractor exception. -/
def boomMsg : List Char := ("boom").toList

/-- The source's extractors with the employee extractor raising: the
instrument for checking how the orchestrator treats an extractor
exception. -/
def extractorsBoom : Extractors :=
  Extractors.mk
    (fun _ => Except.error boomMsg)
    (fun t => Except.ok (_extract_description t))
    (fun t => Except.ok (_extract_date epochDay t))
    (fun t => Except.ok (_extract_category t))
    (fun t => Except.ok (_extract_payment_method t))
    (fun t => Except.ok (_extract_remark t))
    (fun t => Except.ok (_extract_amount t))

/-- A recognized text whose stripped length is below 10. -/
def shortText : List Char := ("  hi th  ").toList

/-- An environment recognizing only `shortText`. -/
def envShort : OCREnv :=
  OCREnv.mk (fun _ => Except.ok imgBig) (fun _ => Except.ok shortText) epochDay

/-- The token of the C3 counterexample. -/
def zeroToken : List Char := ("0.00").toList

/-- The text of the C3 witness. -/
def totalFiveText : List Char := ("total 5").toList

/-- The text of the C5 counterexample: its first pattern-1 match parses
under no format, yet a later pattern-2 match parses. -/
def c5Text : List Char := ("on 99-99-9999 and 2024-03-15").toList

/-- The unparseable first structural match of `c5Text`. -/
def c5Bad : List Char := ("99-99-9999").toList

/-- The date `2024-03-15`. -/
def d20240315 : List Char := ("2024-03-15").toList

/-- The text of the C5 witness: an unparseable pattern-1 match and nothing
else, so the fallthrough ends at the current date. -/
def c5wText : List Char := ("on 99-99-9999 only").toList

/-- The text of the C6 counterexample. -/
def c6Text : List Char := ("Total: $45.670").toList

/-- The substring the claim quantifies over. -/
def c6Sub : List Char := ("Total: $45.67").toList

/-- The capture `45.67`. -/
def amount4567 : List Char := ("45.67").toList

/-- The capture `45.670`. -/
def amount45670 : List Char := ("45.670").toList

/-- The text of the C7 counterexample. -/
def c7Text : List Char := ("uber burger").toList

/-- The keyword `uber`. -/
def kwUber : List Char := ("uber").toList

/-- The text of the C10 counterexample: an invalid `total` capture, then a
valid `amount` capture, then a valid `total` capture. -/
def c10Text : List Char := ("total 0 amount 50 total 70").toList

/-- The capture `50`. -/
def amount50 : List Char := ("50").toList

/-- The capture `70`. -/
def amount70 : List Char := ("70").toList

/-- The text of the C10 witness: an amount label before a valid total
label. -/
def c10wText : List Char := ("amount 50 then total 70").toList

/-! ## Claims -/

/-- C1: the claim says a decode failure propagates to the caller as a raised
error.  It does not: the one `except Exception` handler of
`extract_expense_details` catches the decode error too, so the public call
returns the canonical empty response with the message in the description.
This counterexample shows a decode error raised inside the `try` body
(`extract_core_with` is an `Except.error`) while the public function still
returns a result. -/
theorem claim_C1_counterexample :
    extract_core_with (realExtractors epochDay) envDecodeFail [0] =
      Except.error decodeFailMsg ∧
    extract_expense_details envDecodeFail [0] =
      _empty_response epochDay (msgOCRFailed ++ decodeFailMsg) :=
  ⟨rfl, rfl⟩

/-- C1 (amended): whenever decoding fails, `extract_expense_details` does
not raise; it returns the canonical empty response whose description is
`"OCR processing failed: "` followed by the decode error's message. -/
theorem claim_C1_amended (env : OCREnv) (content : List Nat) (e : List Char)
    (hdec : env.decode content = Except.error e) :
    extract_expense_details env content = _empty_response env.today (msgOCRFailed ++ e) := by
  unfold extract_expense_details extract_expense_details_with extract_core_with
  rw [hdec]

/-- C1 witness: the amended statement at the concrete failing decoder. -/
theorem claim_C1_witness :
    extract_expense_details envDecodeFail [1] =
      _empty_response epochDay (msgOCRFailed ++ decodeFailMsg) :=
  claim_C1_amended envDecodeFail [1] decodeFailMsg rfl

/-- C2: the claim says an extractor exception is caught locally, the field
becomes absent and the other extractors still contribute.  The source has no
per-extractor handler: the dict construction runs under the orchestrator's
single `try`, so one raising extractor discards every field.  Here the
employee extractor raises on a text whose category extractor would return
`Transportation`; the call returns the canonical empty response (category
`Other`, every optional field absent) instead of a result carrying
`Transportation`. -/
theorem claim_C2_counterexample :
    extract_expense_details_with extractorsBoom envUber [0] =
      _empty_response epochDay (msgOCRFailed ++ boomMsg) ∧
    _extract_category uberText = catTransportation := by
  constructor
  · rfl
  · decide

/-- C2 (amended): an exception from any extractor is caught only by the
orchestrator's global handler, which abandons the assembled fields and
returns the canonical empty response with the exception's message in the
description. -/
theorem claim_C2_amended (fs : Extractors) (env : OCREnv) (content : List Nat)
    (img : PILImage) (txt : List Char) (e : List Char)
    (hdec : env.decode content = Except.ok img)
    (hrec : env.recognize (_preprocess_image img) = Except.ok txt)
    (hlong : ¬(txt = [] ∨ (pyStrip txt).length < 10))
    (hasm : assembleWith fs txt = Except.error e) :
    extract_expense_details_with fs env content =
      _empty_response env.today (msgOCRFailed ++ e) := by
  unfold extract_expense_details_with extract_core_with
  rw [hdec]
  dsimp only
  rw [hrec]
  dsimp only
  rw [if_neg hlong, hasm]

/-- C2 witness: the amended statement at the raising employee extractor. -/
theorem claim_C2_witness :
    extract_expense_details_with extractorsBoom envUber [2] =
      _empty_response epochDay (msgOCRFailed ++ boomMsg) :=
  claim_C2_amended extractorsBoom envUber [2] imgBig uberText boomMsg rfl rfl
    (by decide) rfl

/-- Helper: a successful `orElse` succeeds through its first or its second
arm. -/
theorem orElse_some {α : Type} {a b : Option α} {v : α} (h : (a <|> b) = some v) :
    a = some v ∨ b = some v := by
  cases a with
  | none => right; simpa using h
  | some x => left; simpa using h

/-- Helper: everything `validateAmount` lets through parses to a value in
the open rational interval (0, 1000000). -/
theorem validateAmount_spec (g v : List Char) (h : validateAmount g = some v) :
    ∃ d, pyFloat v = some d ∧ 0 < decValQ d ∧ decValQ d < 1000000 := by
  unfold validateAmount at h
  split at h
  case _ d hd =>
    split at h
    case isTrue hr =>
      cases h
      refine ⟨d, hd, ?_, ?_⟩
      · unfold decValQ
        apply div_pos
        · exact_mod_cast hr.1
        · positivity
      · unfold decValQ
        rw [div_lt_iff₀ (by positivity)]
        exact_mod_cast hr.2
    case isFalse hr => cases h
  case _ => cases h

/-- Helper: `validateAmount_spec` through a search arm. -/
theorem bindValidate_spec (s : Option (List Char)) (v : List Char)
    (h : s.bind validateAmount = some v) :
    ∃ d, pyFloat v = some d ∧ 0 < decValQ d ∧ decValQ d < 1000000 := by
  rcases Option.bind_eq_some.mp h with ⟨g, _, hv⟩
  exact validateAmount_spec g v hv

/-- C3: the claim says every value the amount extractor returns parses to a
float strictly between 0 and 1000000, including fallback values.  The
fallback (`max` over the `\b\d+\.\d{2}\b` tokens) performs no range check:
on the text `0.00` the extractor returns `"0.00"`, whose value 0 is not
strictly positive. -/
theorem claim_C3_counterexample :
    _extract_amount zeroToken = some zeroToken ∧
    pyFloat zeroToken = some (DecVal.mk 0 2) ∧ decValQ (DecVal.mk 0 2) = 0 := by
  refine ⟨by decide, by decide, ?_⟩
  unfold decValQ
  norm_num

/-- C3 (amended): every value produced by the five labeled/currency patterns
of the amount extractor parses to a rational strictly between 0 and 1000000;
the two-decimal fallback path carries no such guarantee. -/
theorem claim_C3_amended (t v : List Char) (h : amountPatternsPhase t = some v) :
    ∃ d, pyFloat v = some d ∧ 0 < decValQ d ∧ decValQ d < 1000000 := by
  unfold amountPatternsPhase at h
  rcases orElse_some h with h1 | h
  · exact bindValidate_spec _ v h1
  rcases orElse_some h with h2 | h
  · exact bindValidate_spec _ v h2
  rcases orElse_some h with h3 | h
  · exact bindValidate_spec _ v h3
  rcases orElse_some h with h4 | h5
  · exact bindValidate_spec _ v h4
  · exact bindValidate_spec _ v h5

/-- C3 witness: the amended statement at a concrete labeled capture. -/
theorem claim_C3_witness :
    ∃ d, pyFloat (("5").toList) = some d ∧ 0 < decValQ d ∧ decValQ d < 1000000 :=
  claim_C3_amended totalFiveText (("5").toList) (by decide)

/-- C4: a recognized text that is empty or shorter than 10 stripped
characters short-circuits into the canonical empty response: category
`Other`, paid_by `Cash`, date the current date, employee, remark and amount
absent, and the "no text detected" message as description. -/
theorem claim_C4 (env : OCREnv) (content : List Nat) (img : PILImage) (txt : List Char)
    (hdec : env.decode content = Except.ok img)
    (hrec : env.recognize (_preprocess_image img) = Except.ok txt)
    (hshort : (pyStrip txt).length < 10) :
    extract_expense_details env content =
      [(kEmployee, none), (kDescription, some msgNoText), (kDate, some env.today),
       (kCategory, some catOther), (kPaidBy, some payCash), (kRemark, none),
       (kAmount, none)] := by
  unfold extract_expense_details extract_expense_details_with extract_core_with
  rw [hdec]
  dsimp only
  rw [hrec]
  dsimp only
  rw [if_pos (Or.inr hshort)]
  dsimp only
  unfold _empty_response
  rw [if_neg (by decide : ¬(msgNoText = []))]

/-- C4 witness: the statement at a concrete short recognized text. -/
theorem claim_C4_witness :
    extract_expense_details envShort [0] =
      [(kEmployee, none), (kDescription, some msgNoText), (kDate, some epochDay),
       (kCategory, some catOther), (kPaidBy, some payCash), (kRemark, none),
       (kAmount, none)] :=
  claim_C4 envShort [0] imgBig shortText rfl rfl (by decide)

/-- C5: the claim says that when the first structural match fails all seven
formats the extractor returns the current date.  It does not: the loop falls
through to the remaining patterns, and here pattern 2's match `2024-03-15`
parses, so the extractor returns it instead of the current date. -/
theorem claim_C5_counterexample :
    searchP1 c5Text = some c5Bad ∧ tryFormats c5Bad = none ∧
    _extract_date epochDay c5Text = d20240315 ∧ d20240315 ≠ epochDay := by
  refine ⟨by decide, by decide, by decide, by decide⟩

/-- C5 (amended): per pattern only the first match is parsed, but a first
pattern-1 match that fails every format falls through to patterns 2 and 3
(each again via its first match); the current date is returned only when all
three fail, and the extractor always produces a date. -/
theorem claim_C5_amended (today t m : List Char)
    (h1 : searchP1 t = some m) (h2 : tryFormats m = none) :
    _extract_date today t =
      (((searchP2 t).bind tryFormats) <|> ((searchP3 t).bind tryFormats)).getD today := by
  unfold _extract_date
  rw [h1]
  simp only [Option.some_bind]
  rw [h2]
  rw [Option.none_orElse]

/-- C5 witness: the amended statement at a concrete text. -/
theorem claim_C5_witness :
    _extract_date epochDay c5wText =
      (((searchP2 c5wText).bind tryFormats) <|>
       ((searchP3 c5wText).bind tryFormats)).getD epochDay :=
  claim_C5_amended epochDay c5wText c5Bad (by decide) (by decide)

/-- C6: the claim says every text containing `Total: $45.67` yields amount
`45.67`.  The greedy numeric capture keeps reading digits, so the text
`Total: $45.670` — which contains that substring — yields `45.670`
instead. -/
theorem claim_C6_counterexample :
    containsSubstr c6Text c6Sub = true ∧
    _extract_amount c6Text = some amount45670 ∧ amount45670 ≠ amount4567 := by
  refine ⟨by decide, by decide, by decide⟩

/-- C6 (amended): whenever the leftmost match of the `total` pattern
captures exactly `45.67` — as on the text `Total: $45.67` itself — the
extractor returns `45.67`; a text that merely contains the substring can
capture a longer token or an earlier occurrence instead. -/
theorem claim_C6_amended (t : List Char)
    (h : searchLabel (("total").toList) t = some amount4567) :
    _extract_amount t = some amount4567 := by
  unfold _extract_amount amountPatternsPhase
  rw [h]
  simp only [Option.some_bind]
  rw [(by decide : validateAmount amount4567 = some amount4567)]
  rfl

/-- C6 witness: the amended statement on the text `Total: $45.67`. -/
theorem claim_C6_witness : _extract_amount c6Sub = some amount4567 :=
  claim_C6_amended c6Sub (by decide)

/-- C7: the claim says every text containing `uber` is classified
`Transportation`.  The table is scanned in order and `Food` precedes
`Transportation`, so a text containing both `uber` and a Food keyword —
here `burger` — is classified `Food`. -/
theorem claim_C7_counterexample :
    containsSubstr (pyLowerL c7Text) kwUber = true ∧
    _extract_category c7Text = catFood ∧ catFood ≠ catTransportation := by
  refine ⟨by decide, by decide, by decide⟩

/-- C7 (amended): a text containing `uber` (case-insensitively) and no Food
keyword is classified `Transportation` (Food is the only table row scanned
before Transportation). -/
theorem claim_C7_amended (t : List Char)
    (huber : containsSubstr (pyLowerL t) kwUber = true)
    (hfood : foodKeywords.any (fun k => containsSubstr (pyLowerL t) k) = false) :
    _extract_category t = catTransportation := by
  have htr : transportationKeywords.any (fun k => containsSubstr (pyLowerL t) k) = true := by
    apply List.any_eq_true.mpr
    exact ⟨kwUber, by decide, huber⟩
  unfold _extract_category categoriesTable
  simp only [lookupKeywordTable]
  rw [hfood, htr]
  rfl

/-- C7 witness: the amended statement on the text `uber`. -/
theorem claim_C7_witness : _extract_category kwUber = catTransportation :=
  claim_C7_amended kwUber (by decide) (by decide)

/-- C8: the claim says the resized height is the scaled height rounded to
the nearest integer.  The source truncates (`int()`): a 999 by 1 image is
resized to height 1, while rounding 1500/999 to the nearest integer gives
2. -/
theorem claim_C8_counterexample :
    _preprocess_image (PILImage.mk rgbMode 999 1) = PILImage.mk lMode 1500 1 ∧
    specRoundNearest (1 * 1500) 999 = 2 := by
  refine ⟨by decide, by decide⟩

/-- Helper: the preprocessing step as a size function. -/
theorem preprocess_size (mo : List Char) (w h : Nat) :
    _preprocess_image (PILImage.mk mo w h) =
      if w < 1000 then
        (if w = 0 then PILImage.mk lMode w h
         else
           PILImage.mk lMode (truncDouble (mulNatDouble w (divDouble 1500 w)))
             (truncDouble (mulNatDouble h (divDouble 1500 w))))
      else PILImage.mk lMode w h := by
  unfold _preprocess_image
  by_cases hmo : mo = rgbMode <;> simp [hmo]

/-- C8 (amended): an image of width 1000 or more keeps its dimensions.  An
image of positive width below 1000 has both dimensions scaled by the
binary64 factor `1500 / width` and truncated with `int()`: the output width
is usually 1500 but not always (width 91 yields 1499, since
`91 * (1500 / 91)` rounds just below 1500), and the output height is the
truncated float product, not the nearest integer (width 275 stays exact at
1500 while height 11 becomes 59, although the exact quotient
`11 * 1500 / 275` is 60, the value rounding to nearest would give). -/
theorem claim_C8_amended (mo : List Char) (w h : Nat) :
    (1000 ≤ w → _preprocess_image (PILImage.mk mo w h) = PILImage.mk lMode w h) ∧
    (0 < w → w < 1000 →
      _preprocess_image (PILImage.mk mo w h) =
        PILImage.mk lMode (truncDouble (mulNatDouble w (divDouble 1500 w)))
          (truncDouble (mulNatDouble h (divDouble 1500 w)))) ∧
    truncDouble (mulNatDouble 91 (divDouble 1500 91)) = 1499 ∧
    truncDouble (mulNatDouble 275 (divDouble 1500 275)) = 1500 ∧
    truncDouble (mulNatDouble 11 (divDouble 1500 275)) = 59 ∧
    11 * 1500 / 275 = 60 ∧ specRoundNearest (11 * 1500) 275 = 60 := by
  refine ⟨?_, ?_, by decide, by decide, by decide, by decide, by decide⟩
  · intro hge
    rw [preprocess_size, if_neg (by omega)]
  · intro hw hlt
    rw [preprocess_size, if_pos hlt, if_neg (Nat.pos_iff_ne_zero.mp hw)]

/-- C8 witness: the amended statement at a 1200 by 900 image (unchanged) and
at a 91 by 50 image (resized through the binary64 factor). -/
theorem claim_C8_witness :
    _preprocess_image (PILImage.mk rgbMode 1200 900) = PILImage.mk lMode 1200 900 ∧
    _preprocess_image (PILImage.mk rgbMode 91 50) =
      PILImage.mk lMode (truncDouble (mulNatDouble 91 (divDouble 1500 91)))
        (truncDouble (mulNatDouble 50 (divDouble 1500 91))) :=
  ⟨(claim_C8_amended rgbMode 1200 900).1 (by decide),
   (claim_C8_amended rgbMode 91 50).2.1 (by decide) (by decide)⟩

/-- C9: on every input — including undecodable bytes — the public entry
point returns (never raises) an association list with exactly the seven keys
employee, description, date, category, paid_by, remark, amount in dict
order, and the date, category and paid_by values are present on every
path. -/
theorem claim_C9 (env : OCREnv) (content : List Nat) :
    ∃ ev dv da c p rv av,
      extract_expense_details env content =
        [(kEmployee, ev), (kDescription, dv), (kDate, some da), (kCategory, some c),
         (kPaidBy, some p), (kRemark, rv), (kAmount, av)] := by
  unfold extract_expense_details extract_expense_details_with extract_core_with
  cases hd : env.decode content with
  | error e =>
    dsimp only
    exact ⟨none, _, env.today, catOther, payCash, none, none, rfl⟩
  | ok img =>
    dsimp only
    cases hr : env.recognize (_preprocess_image img) with
    | error e =>
      dsimp only
      exact ⟨none, _, env.today, catOther, payCash, none, none, rfl⟩
    | ok txt =>
      dsimp only
      by_cases hshort : txt = [] ∨ (pyStrip txt).length < 10
      · rw [if_pos hshort]
        exact ⟨none, _, env.today, catOther, payCash, none, none, rfl⟩
      · rw [if_neg hshort]
        exact ⟨_extract_employee txt, _extract_description txt, _extract_date env.today txt,
          _extract_category txt, _extract_payment_method txt, _extract_remark txt,
          _extract_amount txt, rfl⟩

/-- C9 witness: the statement at a concrete environment. -/
theorem claim_C9_witness :
    ∃ ev dv da c p rv av,
      extract_expense_details envUber [0] =
        [(kEmployee, ev), (kDescription, dv), (kDate, some da), (kCategory, some c),
         (kPaidBy, some p), (kRemark, rv), (kAmount, av)] :=
  claim_C9 envUber [0]

/-- C10: the claim says a text containing a valid amount-labeled value and a
later valid total-labeled value always yields the total-labeled value.  Each
pass only examines its pattern's first match: here the first `total` match
captures the invalid `0`, the total pass is abandoned, and the amount pass
returns `50` even though the valid `total 70` appears later. -/
theorem claim_C10_counterexample :
    containsSubstr c10Text (("amount 50").toList) = true ∧
    containsSubstr c10Text (("total 70").toList) = true ∧
    _extract_amount c10Text = some amount50 ∧ amount50 ≠ amount70 := by
  refine ⟨by decide, by decide, by decide, by decide⟩

/-- C10 (amended): the five passes run in the fixed order total, amount,
grand total, balance, currency, each considering only its pattern's first
match: whenever the first `total` match validates, its value is returned
even when an amount-labeled value occurs earlier in the text; but an
invalid first `total` occurrence diverts to the later passes. -/
theorem claim_C10_amended (t g a : List Char)
    (h : searchLabel (("total").toList) t = some g)
    (hv : validateAmount g = some a) :
    _extract_amount t = some a := by
  unfold _extract_amount amountPatternsPhase
  rw [h]
  simp only [Option.some_bind]
  rw [hv]
  rfl

/-- C10 witness: the amended statement at a concrete text where the earlier
amount label loses to the total pass. -/
theorem claim_C10_witness : _extract_amount c10wText = some amount70 :=
  claim_C10_amended c10wText amount70 amount70 (by decide) (by decide)
